import Mathlib

/-!
Shallow embedding of `src/Framebuffer.h` from the Magnum repository
(class `Magnum::Framebuffer`, an OpenGL framebuffer wrapper).

The class is a thin layer over a stateful native graphics API: every
member function issues one or more `gl*` calls.  We embed each member
function as the exact list of native commands it issues (`List GLCmd`),
and give the native layer an explicit small-step interpreter
(`GLCmd.run`) over a state record `GLState` that models the per-context
binding table, the per-framebuffer attachment table, the abstract
contents of the color/depth/stencil buffers, and the pipeline feature
flags, following the collaborator contracts described in the
documentation comments of the header.

Machine integers: `GLenum`/`GLuint`/`GLbitfield` are 32-bit unsigned;
arithmetic on them is modelled as `Nat` with an explicit `% 2 ^ 32`
where the source performs arithmetic (`GL_COLOR_ATTACHMENT0 +
colorAttachment`).  `GLint` is modelled as `Int`; the source never
computes with the rectangle coordinates, it only forwards them.
-/

namespace Magnum

/-- `GL_COLOR_ATTACHMENT0` (0x8CE0). -/
def GL_COLOR_ATTACHMENT0 : Nat := 36064

/-- `GL_DEPTH_ATTACHMENT` (0x8D00). -/
def GL_DEPTH_ATTACHMENT : Nat := 36096

/-- `GL_STENCIL_ATTACHMENT` (0x8D20). -/
def GL_STENCIL_ATTACHMENT : Nat := 36128

/-- `GL_DEPTH_STENCIL_ATTACHMENT` (0x821A). -/
def GL_DEPTH_STENCIL_ATTACHMENT : Nat := 33306

/-- `GL_RENDERBUFFER` (0x8D41). -/
def GL_RENDERBUFFER : Nat := 36161

/-- `Framebuffer::Target` (Framebuffer.h lines 422-440): the role a
framebuffer is bound to — `GL_READ_FRAMEBUFFER`, `GL_DRAW_FRAMEBUFFER`
or `GL_FRAMEBUFFER` (both). -/
inductive Target where
  | Read
  | Draw
  | ReadDraw
deriving DecidableEq, Repr

/-- `Framebuffer::Feature` (Framebuffer.h lines 53-73). -/
inductive Feature where
  | Blending
  | DepthClamp
  | DepthTest
  | StencilTest
  | Dithering
  | FaceCulling
deriving DecidableEq, Repr

/-- `Framebuffer::ClearMask = Corrade::Utility::Set<Clear, GLbitfield>`
(Framebuffer.h line 101): a bit-set over the three disjoint buffer bits
`GL_COLOR_BUFFER_BIT`, `GL_DEPTH_BUFFER_BIT`, `GL_STENCIL_BUFFER_BIT`,
represented by one Boolean per bit. -/
structure ClearMask where
  color : Bool
  depth : Bool
  stencil : Bool
deriving DecidableEq, Repr

/-- `Framebuffer::BlitMask = Corrade::Utility::Set<Blit, GLbitfield>`
(Framebuffer.h line 802): same three buffer bits as `ClearMask`. -/
structure BlitMask where
  color : Bool
  depth : Bool
  stencil : Bool
deriving DecidableEq, Repr

/-- `Framebuffer::DepthStencilAttachment` (Framebuffer.h lines 591-603). -/
inductive DepthStencilAttachment where
  | Depth
  | Stencil
  | DepthStencil
deriving DecidableEq, Repr

/-- The `GLenum` value of a `DepthStencilAttachment`. -/
def DepthStencilAttachment.toGL : DepthStencilAttachment → Nat
  | .Depth => GL_DEPTH_ATTACHMENT
  | .Stencil => GL_STENCIL_ATTACHMENT
  | .DepthStencil => GL_DEPTH_STENCIL_ATTACHMENT

/-- `Framebuffer::DefaultReadAttachment` (Framebuffer.h lines 465-475). -/
inductive DefaultReadAttachment where
  | FrontLeft
  | FrontRight
  | BackLeft
  | BackRight
  | Left
  | Right
  | Front
  | Back
  | FrontAndBack
deriving DecidableEq, Repr

/-- The `GLenum` value of a `DefaultReadAttachment` (`GL_FRONT_LEFT` =
0x0400 and following). -/
def DefaultReadAttachment.toGL : DefaultReadAttachment → Nat
  | .FrontLeft => 1024
  | .FrontRight => 1025
  | .BackLeft => 1026
  | .BackRight => 1027
  | .Left => 1030
  | .Right => 1031
  | .Front => 1028
  | .Back => 1029
  | .FrontAndBack => 1032

/-- `AbstractTexture::Filter` (external collaborator, used by `blit` only
as a forwarded constant; `NearestNeighbor` is `GL_NEAREST`). -/
inductive Filter where
  | NearestNeighbor
  | LinearInterpolation
deriving DecidableEq, Repr

/-- `Math::Vector2<GLint>`: a pair of signed 32-bit coordinates.  The
wrapper never computes with them, so plain `Int` is faithful. -/
structure Vec2 where
  x : Int
  y : Int
deriving DecidableEq, Repr

/-- A resource attached to a framebuffer attachment point, as recorded by
the native layer: either a renderbuffer id, or a texture id with its
texture target, mip level and (for 3D textures) layer. -/
inductive AttachedRes where
  | renderbuffer (id : Nat)
  | texture1D (texTarget : Nat) (id : Nat) (mipLevel : Int)
  | texture2D (texTarget : Nat) (id : Nat) (mipLevel : Int)
  | texture3D (texTarget : Nat) (id : Nat) (mipLevel : Int) (layer : Int)
deriving DecidableEq, Repr

/-- One native (OpenGL) command as issued by the wrapper.  Each
constructor carries exactly the arguments the corresponding `gl*` call
receives in the source. -/
inductive GLCmd where
  | bindFramebuffer (target : Target) (fb : Nat)
  | deleteFramebuffers (fb : Nat)
  | framebufferRenderbuffer (target : Target) (attachment : Nat) (rb : Nat)
  | framebufferTexture1D (target : Target) (attachment : Nat)
      (texTarget : Nat) (tex : Nat) (mipLevel : Int)
  | framebufferTexture2D (target : Target) (attachment : Nat)
      (texTarget : Nat) (tex : Nat) (mipLevel : Int)
  | framebufferTexture3D (target : Target) (attachment : Nat)
      (texTarget : Nat) (tex : Nat) (mipLevel : Int) (layer : Int)
  | readBuffer (buf : Nat)
  | clearBuffers (mask : ClearMask)
  | blitFramebuffer (srcX0 srcY0 srcX1 srcY1 dstX0 dstY0 dstX1 dstY1 : Int)
      (mask : BlitMask) (filter : Filter)
  | readPixels (x y : Int) (width height : Int) (components : Nat) (type : Nat)
  | enable (f : Feature)
  | disable (f : Feature)
deriving DecidableEq, Repr

/-- State of the native graphics context plus the one piece of
process-wide state owned by the wrapper itself (the private static
`Framebuffer::clearMask`, Framebuffer.h line 878).

Buffer contents and clear values are abstract tokens (`Nat`): the claims
under study are about which buffers change and to what stored value,
never about pixel arithmetic. -/
@[ext]
structure GLState where
  /-- Next framebuffer name `glGenFramebuffers` hands out (0 is the
  default framebuffer and is never generated). -/
  nextId : Nat
  /-- Which framebuffer names currently exist. -/
  alive : Nat → Bool
  /-- Framebuffer bound to `GL_READ_FRAMEBUFFER` (0 = default). -/
  readBinding : Nat
  /-- Framebuffer bound to `GL_DRAW_FRAMEBUFFER` (0 = default). -/
  drawBinding : Nat
  /-- Attachment table: framebuffer name → attachment point (`GLenum`) →
  attached resource. -/
  attachments : Nat → Nat → Option AttachedRes
  /-- Read-buffer selection of each framebuffer (set by `glReadBuffer` on
  the currently read-bound framebuffer). -/
  readBufferSel : Nat → Nat
  /-- Pipeline feature flags (`glEnable`/`glDisable`). -/
  features : Feature → Bool
  /-- The wrapper's private static `Framebuffer::clearMask`. -/
  clearMask : ClearMask
  /-- Current clear color (abstract token). -/
  clearColorVal : Nat
  /-- Current clear depth (abstract token). -/
  clearDepthVal : Nat
  /-- Current clear stencil (abstract token). -/
  clearStencilVal : Nat
  /-- Abstract color-buffer contents of each framebuffer. -/
  colorBuf : Nat → Nat
  /-- Abstract depth-buffer contents of each framebuffer. -/
  depthBuf : Nat → Nat
  /-- Abstract stencil-buffer contents of each framebuffer. -/
  stencilBuf : Nat → Nat

/-- The framebuffer an attachment-editing or read-selecting command
addresses when issued with a given target role: `GL_READ_FRAMEBUFFER`
addresses the read binding, `GL_DRAW_FRAMEBUFFER` and `GL_FRAMEBUFFER`
the draw binding. -/
def GLState.attachAddr (s : GLState) : Target → Nat
  | .Read => s.readBinding
  | .Draw => s.drawBinding
  | .ReadDraw => s.drawBinding

/-- Small-step semantics of one native command, following the contracts
the header's documentation states for the collaborating native layer:
`glBindFramebuffer` updates the binding(s) of the given role;
attachment commands edit the attachment table of the framebuffer
currently bound to the given role; `glClear` overwrites the selected
buffers of the draw-bound framebuffer with the current clear values;
`glBlitFramebuffer` copies the selected buffers from the read-bound to
the draw-bound framebuffer; `glDeleteFramebuffers` destroys one name and
resets any role binding that pointed at it to the default framebuffer;
`glReadPixels` writes to client memory and leaves the context state
unchanged. -/
def GLCmd.run (s : GLState) : GLCmd → GLState
  | .bindFramebuffer t fb =>
    match t with
    | .Read => { s with readBinding := fb }
    | .Draw => { s with drawBinding := fb }
    | .ReadDraw => { s with readBinding := fb, drawBinding := fb }
  | .deleteFramebuffers fb =>
    { s with
      alive := fun n => if n = fb then false else s.alive n
      readBinding := if s.readBinding = fb then 0 else s.readBinding
      drawBinding := if s.drawBinding = fb then 0 else s.drawBinding }
  | .framebufferRenderbuffer t a rb =>
    { s with attachments := fun f p =>
        if f = s.attachAddr t ∧ p = a then some (.renderbuffer rb)
        else s.attachments f p }
  | .framebufferTexture1D t a tt tex mip =>
    { s with attachments := fun f p =>
        if f = s.attachAddr t ∧ p = a then some (.texture1D tt tex mip)
        else s.attachments f p }
  | .framebufferTexture2D t a tt tex mip =>
    { s with attachments := fun f p =>
        if f = s.attachAddr t ∧ p = a then some (.texture2D tt tex mip)
        else s.attachments f p }
  | .framebufferTexture3D t a tt tex mip layer =>
    { s with attachments := fun f p =>
        if f = s.attachAddr t ∧ p = a then some (.texture3D tt tex mip layer)
        else s.attachments f p }
  | .readBuffer b =>
    { s with readBufferSel := fun f =>
        if f = s.readBinding then b else s.readBufferSel f }
  | .clearBuffers m =>
    { s with
      colorBuf := fun f =>
        if f = s.drawBinding ∧ m.color then s.clearColorVal else s.colorBuf f
      depthBuf := fun f =>
        if f = s.drawBinding ∧ m.depth then s.clearDepthVal else s.depthBuf f
      stencilBuf := fun f =>
        if f = s.drawBinding ∧ m.stencil then s.clearStencilVal
        else s.stencilBuf f }
  | .blitFramebuffer _ _ _ _ _ _ _ _ m _ =>
    { s with
      colorBuf := fun f =>
        if f = s.drawBinding ∧ m.color then s.colorBuf s.readBinding
        else s.colorBuf f
      depthBuf := fun f =>
        if f = s.drawBinding ∧ m.depth then s.depthBuf s.readBinding
        else s.depthBuf f
      stencilBuf := fun f =>
        if f = s.drawBinding ∧ m.stencil then s.stencilBuf s.readBinding
        else s.stencilBuf f }
  | .readPixels _ _ _ _ _ _ => s
  | .enable f =>
    { s with features := fun g => if g = f then true else s.features g }
  | .disable f =>
    { s with features := fun g => if g = f then false else s.features g }

/-- Run a list of native commands in order. -/
def runTrace (s : GLState) (cs : List GLCmd) : GLState :=
  cs.foldl GLCmd.run s

namespace Framebuffer

/-- `Framebuffer::bind(Target)` (Framebuffer.h lines 509-511): the trace
of native commands issued by a framebuffer whose handle is `fb`. -/
def bindTrace (fb : Nat) (t : Target) : List GLCmd :=
  [.bindFramebuffer t fb]

/-- `Framebuffer::bindDefault(Target)` (Framebuffer.h lines 500-502). -/
def bindDefaultTrace (t : Target) : List GLCmd :=
  [.bindFramebuffer t 0]

/-- `Framebuffer::Framebuffer()` (Framebuffer.h line 484):
`glGenFramebuffers(1, &framebuffer)` — returns the freshly generated
handle together with the updated native state. -/
def construct (s : GLState) : Nat × GLState :=
  (s.nextId,
   { s with
     nextId := s.nextId + 1
     alive := fun n => if n = s.nextId then true else s.alive n })

/-- `Framebuffer::~Framebuffer()` (Framebuffer.h line 492):
`glDeleteFramebuffers(1, &framebuffer)`. -/
def destroyTrace (fb : Nat) : List GLCmd :=
  [.deleteFramebuffers fb]

/-- `Framebuffer::clear()` (Framebuffer.h line 112):
`glClear(static_cast<GLbitfield>(clearMask))` — reads the private static
`clearMask` from the current state. -/
def clearNoArg (s : GLState) : GLState :=
  GLCmd.run s (.clearBuffers s.clearMask)

/-- `Framebuffer::clear(ClearMask)` (Framebuffer.h line 120):
`glClear(static_cast<GLbitfield>(mask))`. -/
def clearWithMask (m : ClearMask) (s : GLState) : GLState :=
  GLCmd.run s (.clearBuffers m)

/-- Modelled from the spec: the body of `Framebuffer::setFeature` is in
`Framebuffer.cpp`, which is absent from the source tree (the header only
declares it, Framebuffer.h line 76).  Per the spec it enables or
disables the native feature flag and keeps the private static
`clearMask` in sync so that the no-argument `clear()` clears the depth
buffer exactly when `DepthTest` is enabled and the stencil buffer
exactly when `StencilTest` is enabled, always clearing color. -/
def setFeature (f : Feature) (enabled : Bool) (s : GLState) : GLState :=
  let s1 := GLCmd.run s (if enabled then .enable f else .disable f)
  match f with
  | .DepthTest => { s1 with clearMask := { s1.clearMask with depth := enabled } }
  | .StencilTest => { s1 with clearMask := { s1.clearMask with stencil := enabled } }
  | _ => s1

/-- `Framebuffer::attachRenderbuffer(Target, DepthStencilAttachment,
Renderbuffer*)` (Framebuffer.h lines 613-617): `bind(target)` then
`glFramebufferRenderbuffer(target, depthStencilAttachment,
GL_RENDERBUFFER, renderbuffer->id())`. -/
def attachRenderbufferDSTrace (fb : Nat) (t : Target)
    (a : DepthStencilAttachment) (rb : Nat) : List GLCmd :=
  [.bindFramebuffer t fb, .framebufferRenderbuffer t a.toGL rb]

/-- `Framebuffer::attachRenderbuffer(Target, unsigned int,
Renderbuffer*)` (Framebuffer.h lines 627-631): `bind(target)` then
`glFramebufferRenderbuffer(target, GL_COLOR_ATTACHMENT0 +
colorAttachment, GL_RENDERBUFFER, renderbuffer->id())`; the addition is
32-bit unsigned. -/
def attachRenderbufferColorTrace (fb : Nat) (t : Target)
    (colorAttachment : Nat) (rb : Nat) : List GLCmd :=
  [.bindFramebuffer t fb,
   .framebufferRenderbuffer t ((GL_COLOR_ATTACHMENT0 + colorAttachment) % 2 ^ 32) rb]

/-- `Framebuffer::attachTexture2D(Target, DepthStencilAttachment,
Texture2D*, GLint)` (Framebuffer.h lines 680-685): `bind(target)` then
`glFramebufferTexture2D(target, depthStencilAttachment,
texture->target(), texture->id(), mipLevel)`. -/
def attachTexture2DDSTrace (fb : Nat) (t : Target)
    (a : DepthStencilAttachment) (texTarget tex : Nat) (mipLevel : Int) :
    List GLCmd :=
  [.bindFramebuffer t fb,
   .framebufferTexture2D t a.toGL texTarget tex mipLevel]

/-- `Framebuffer::attachTexture2D(Target, unsigned int, Texture2D*,
GLint)` (Framebuffer.h lines 698-703): `bind(target)` then
`glFramebufferTexture2D(target, GL_COLOR_ATTACHMENT0 + colorAttachment,
texture->target(), texture->id(), mipLevel)`. -/
def attachTexture2DColorTrace (fb : Nat) (t : Target)
    (colorAttachment : Nat) (texTarget tex : Nat) (mipLevel : Int) :
    List GLCmd :=
  [.bindFramebuffer t fb,
   .framebufferTexture2D t ((GL_COLOR_ATTACHMENT0 + colorAttachment) % 2 ^ 32)
     texTarget tex mipLevel]

/-- `Framebuffer::attachTexture1D(Target, DepthStencilAttachment,
Texture1D*, GLint)` (Framebuffer.h lines 644-649): `bind(target)` then
`glFramebufferTexture1D(target, depthStencilAttachment,
texture->target(), texture->id(), mipLevel)`. -/
def attachTexture1DDSTrace (fb : Nat) (t : Target)
    (a : DepthStencilAttachment) (texTarget tex : Nat) (mipLevel : Int) :
    List GLCmd :=
  [.bindFramebuffer t fb,
   .framebufferTexture1D t a.toGL texTarget tex mipLevel]

/-- `Framebuffer::attachTexture1D(Target, unsigned int, Texture1D*,
GLint)` (Framebuffer.h lines 661-666): `bind(target)` then
`glFramebufferTexture1D(target, GL_COLOR_ATTACHMENT0 + colorAttachment,
texture->target(), texture->id(), mipLevel)`. -/
def attachTexture1DColorTrace (fb : Nat) (t : Target)
    (colorAttachment : Nat) (texTarget tex : Nat) (mipLevel : Int) :
    List GLCmd :=
  [.bindFramebuffer t fb,
   .framebufferTexture1D t ((GL_COLOR_ATTACHMENT0 + colorAttachment) % 2 ^ 32)
     texTarget tex mipLevel]

/-- `Framebuffer::attachCubeMapTexture(Target, DepthStencilAttachment,
CubeMapTexture*, CubeMapTexture::Coordinate, GLint)` (Framebuffer.h
lines 716-720): `bind(target)` then `glFramebufferTexture2D(target,
depthStencilAttachment, coordinate, texture->id(), mipLevel)` — the
cube-face coordinate (a `GLenum` of the external `CubeMapTexture`
collaborator, forwarded opaquely) takes the place of the texture
target. -/
def attachCubeMapTextureDSTrace (fb : Nat) (t : Target)
    (a : DepthStencilAttachment) (coordinate tex : Nat) (mipLevel : Int) :
    List GLCmd :=
  [.bindFramebuffer t fb,
   .framebufferTexture2D t a.toGL coordinate tex mipLevel]

/-- `Framebuffer::attachCubeMapTexture(Target, unsigned int,
CubeMapTexture*, CubeMapTexture::Coordinate, GLint)` (Framebuffer.h
lines 733-737): `bind(target)` then `glFramebufferTexture2D(target,
GL_COLOR_ATTACHMENT0 + colorAttachment, coordinate, texture->id(),
mipLevel)`. -/
def attachCubeMapTextureColorTrace (fb : Nat) (t : Target)
    (colorAttachment : Nat) (coordinate tex : Nat) (mipLevel : Int) :
    List GLCmd :=
  [.bindFramebuffer t fb,
   .framebufferTexture2D t ((GL_COLOR_ATTACHMENT0 + colorAttachment) % 2 ^ 32)
     coordinate tex mipLevel]

/-- `Framebuffer::attachTexture3D(Target, DepthStencilAttachment,
Texture3D*, GLint, GLint)` (Framebuffer.h lines 751-756):
`bind(target)` then `glFramebufferTexture3D(target,
depthStencilAttachment, texture->target(), texture->id(), mipLevel,
layer)`. -/
def attachTexture3DDSTrace (fb : Nat) (t : Target)
    (a : DepthStencilAttachment) (texTarget tex : Nat)
    (mipLevel layer : Int) : List GLCmd :=
  [.bindFramebuffer t fb,
   .framebufferTexture3D t a.toGL texTarget tex mipLevel layer]

/-- `Framebuffer::attachTexture3D(Target, unsigned int, Texture3D*,
GLint, GLint)` (Framebuffer.h lines 769-774): `bind(target)` then
`glFramebufferTexture3D(target, GL_COLOR_ATTACHMENT0 + colorAttachment,
texture->target(), texture->id(), mipLevel, layer)`. -/
def attachTexture3DColorTrace (fb : Nat) (t : Target)
    (colorAttachment : Nat) (texTarget tex : Nat) (mipLevel layer : Int) :
    List GLCmd :=
  [.bindFramebuffer t fb,
   .framebufferTexture3D t ((GL_COLOR_ATTACHMENT0 + colorAttachment) % 2 ^ 32)
     texTarget tex mipLevel layer]

/-- `Framebuffer::mapForRead(unsigned int)` (Framebuffer.h lines
571-574): `bind(Target::Read)` then `glReadBuffer(GL_COLOR_ATTACHMENT0 +
colorAttachment)`; the addition is 32-bit unsigned. -/
def mapForReadTrace (fb : Nat) (colorAttachment : Nat) : List GLCmd :=
  [.bindFramebuffer .Read fb,
   .readBuffer ((GL_COLOR_ATTACHMENT0 + colorAttachment) % 2 ^ 32)]

/-- `Framebuffer::mapDefaultForRead(DefaultReadAttachment)`
(Framebuffer.h lines 556-559): `bindDefault(Target::Read)` then
`glReadBuffer(attachment)`. -/
def mapDefaultForReadTrace (attachment : DefaultReadAttachment) : List GLCmd :=
  [.bindFramebuffer .Read 0, .readBuffer attachment.toGL]

/-- `Framebuffer::blit` general overload (Framebuffer.h lines 822-824):
one `glBlitFramebuffer` with all eight coordinates, the mask and the
filter forwarded unchanged. -/
def blitTrace (bottomLeft topRight destinationBottomLeft
    destinationTopRight : Vec2) (blitMask : BlitMask) (filter : Filter) :
    List GLCmd :=
  [.blitFramebuffer bottomLeft.x bottomLeft.y topRight.x topRight.y
     destinationBottomLeft.x destinationBottomLeft.y
     destinationTopRight.x destinationTopRight.y blitMask filter]

/-- `Framebuffer::blit` same-rectangle convenience overload
(Framebuffer.h lines 842-844): one `glBlitFramebuffer` with the source
rectangle repeated as destination and `Filter::NearestNeighbor`. -/
def blitSameTrace (bottomLeft topRight : Vec2) (blitMask : BlitMask) :
    List GLCmd :=
  [.blitFramebuffer bottomLeft.x bottomLeft.y topRight.x topRight.y
     bottomLeft.x bottomLeft.y topRight.x topRight.y blitMask
     .NearestNeighbor]

/-- Modelled from the spec: the body of
`Framebuffer::read(offset, dimensions, components, type, Image2D*)` is
in `Framebuffer.cpp`, absent from the source tree (declared at
Framebuffer.h line 857).  Per the spec the read path forwards the
caller's rectangle and component/type descriptors to the native layer
unchanged, with no local validation. -/
def readTrace (offset dimensions : Vec2) (components type : Nat) :
    List GLCmd :=
  [.readPixels offset.x offset.y dimensions.x dimensions.y components type]

/-- The documented initial value of the wrapper's private static
`clearMask` (also from the missing `Framebuffer.cpp`; the header's
documentation of `clear()` at lines 103-112 fixes it: color is always
cleared, depth/stencil only once the corresponding test is enabled, and
all features start disabled). -/
def initClearMask : ClearMask :=
  { color := true, depth := false, stencil := false }

/-- The `clearMask` invariant every reachable pipeline state satisfies:
the private static always holds Color, holds Depth exactly when
`DepthTest` is enabled and Stencil exactly when `StencilTest` is
enabled. -/
def clearMaskInv (s : GLState) : Prop :=
  s.clearMask =
    { color := true
      depth := s.features .DepthTest
      stencil := s.features .StencilTest }

end Framebuffer

/-- A concrete initial native state: no custom framebuffers, default
framebuffer bound for both roles, documented feature defaults (only
dithering on), `clearMask` at its documented initial value. -/
def initState : GLState :=
  { nextId := 1
    alive := fun _ => false
    readBinding := 0
    drawBinding := 0
    attachments := fun _ _ => none
    readBufferSel := fun _ => 0
    features := fun f => match f with | .Dithering => true | _ => false
    clearMask := Framebuffer.initClearMask
    clearColorVal := 0
    clearDepthVal := 1
    clearStencilVal := 0
    colorBuf := fun _ => 0
    depthBuf := fun _ => 0
    stencilBuf := fun _ => 0 }

/-! ## Supporting lemmas -/

/-- The initial state satisfies the `clearMask` invariant. -/
theorem clearMaskInv_initState : Framebuffer.clearMaskInv initState := rfl

/-- `setFeature` preserves the `clearMask` invariant: since the wrapper's
private static is only ever written by `setFeature`, the invariant holds
in every reachable pipeline state. -/
theorem clearMaskInv_setFeature (s : GLState) (f : Feature) (b : Bool)
    (h : Framebuffer.clearMaskInv s) :
    Framebuffer.clearMaskInv (Framebuffer.setFeature f b s) := by
  cases f <;> cases b <;>
    simp_all [Framebuffer.clearMaskInv, Framebuffer.setFeature, GLCmd.run]

/-- No wrapper operation other than `setFeature` touches the feature
flags or the private static `clearMask`, so the invariant is also
preserved by every other native command the wrapper issues. -/
theorem clearMaskInv_run_of_not_feature (s : GLState) (c : GLCmd)
    (hc : ∀ f, c ≠ .enable f ∧ c ≠ .disable f)
    (h : Framebuffer.clearMaskInv s) :
    Framebuffer.clearMaskInv (GLCmd.run s c) := by
  cases c with
  | enable f => exact absurd rfl (hc f).1
  | disable f => exact absurd rfl (hc f).2
  | bindFramebuffer t fb =>
    cases t <;> simpa [Framebuffer.clearMaskInv, GLCmd.run] using h
  | _ => simpa [Framebuffer.clearMaskInv, GLCmd.run] using h

/-! ## Claim theorems -/

/-- Claim C2: every attach operation in the API surface — all ten
overloads: renderbuffer, 1D/2D/cube-map/3D texture, each in
depth/stencil and in color form — first binds the invoked framebuffer
to the given role target and only then issues the native attach against
that role.  The first ten conjuncts exhibit the exact traces (the bind
command strictly precedes the native attach command in every one); the
next shows the bind makes the invoked framebuffer the one a native
attach addresses for that role; the last ten show that consequently,
from an arbitrary prior state (in particular after any interleaved
binds by other targets), each attach lands on the invoked
framebuffer. -/
theorem C2_attach_binds_before_native_attach (fb : Nat) (t : Target)
    (a : DepthStencilAttachment) (rb texTarget tex coordinate n : Nat)
    (mipLevel layer : Int) :
    (Framebuffer.attachRenderbufferDSTrace fb t a rb =
      [.bindFramebuffer t fb, .framebufferRenderbuffer t a.toGL rb]) ∧
    (Framebuffer.attachRenderbufferColorTrace fb t n rb =
      [.bindFramebuffer t fb,
       .framebufferRenderbuffer t ((GL_COLOR_ATTACHMENT0 + n) % 2 ^ 32) rb]) ∧
    (Framebuffer.attachTexture1DDSTrace fb t a texTarget tex mipLevel =
      [.bindFramebuffer t fb,
       .framebufferTexture1D t a.toGL texTarget tex mipLevel]) ∧
    (Framebuffer.attachTexture1DColorTrace fb t n texTarget tex mipLevel =
      [.bindFramebuffer t fb,
       .framebufferTexture1D t ((GL_COLOR_ATTACHMENT0 + n) % 2 ^ 32)
         texTarget tex mipLevel]) ∧
    (Framebuffer.attachTexture2DDSTrace fb t a texTarget tex mipLevel =
      [.bindFramebuffer t fb,
       .framebufferTexture2D t a.toGL texTarget tex mipLevel]) ∧
    (Framebuffer.attachTexture2DColorTrace fb t n texTarget tex mipLevel =
      [.bindFramebuffer t fb,
       .framebufferTexture2D t ((GL_COLOR_ATTACHMENT0 + n) % 2 ^ 32)
         texTarget tex mipLevel]) ∧
    (Framebuffer.attachCubeMapTextureDSTrace fb t a coordinate tex mipLevel =
      [.bindFramebuffer t fb,
       .framebufferTexture2D t a.toGL coordinate tex mipLevel]) ∧
    (Framebuffer.attachCubeMapTextureColorTrace fb t n coordinate tex mipLevel =
      [.bindFramebuffer t fb,
       .framebufferTexture2D t ((GL_COLOR_ATTACHMENT0 + n) % 2 ^ 32)
         coordinate tex mipLevel]) ∧
    (Framebuffer.attachTexture3DDSTrace fb t a texTarget tex mipLevel layer =
      [.bindFramebuffer t fb,
       .framebufferTexture3D t a.toGL texTarget tex mipLevel layer]) ∧
    (Framebuffer.attachTexture3DColorTrace fb t n texTarget tex mipLevel layer =
      [.bindFramebuffer t fb,
       .framebufferTexture3D t ((GL_COLOR_ATTACHMENT0 + n) % 2 ^ 32)
         texTarget tex mipLevel layer]) ∧
    (∀ s : GLState, (GLCmd.run s (.bindFramebuffer t fb)).attachAddr t = fb) ∧
    (∀ s : GLState,
      (runTrace s (Framebuffer.attachRenderbufferDSTrace fb t a rb)).attachments
        fb a.toGL = some (.renderbuffer rb)) ∧
    (∀ s : GLState,
      (runTrace s (Framebuffer.attachRenderbufferColorTrace fb t n rb)).attachments
        fb ((GL_COLOR_ATTACHMENT0 + n) % 2 ^ 32) = some (.renderbuffer rb)) ∧
    (∀ s : GLState,
      (runTrace s
        (Framebuffer.attachTexture1DDSTrace fb t a texTarget tex mipLevel)).attachments
        fb a.toGL = some (.texture1D texTarget tex mipLevel)) ∧
    (∀ s : GLState,
      (runTrace s
        (Framebuffer.attachTexture1DColorTrace fb t n texTarget tex mipLevel)).attachments
        fb ((GL_COLOR_ATTACHMENT0 + n) % 2 ^ 32) =
        some (.texture1D texTarget tex mipLevel)) ∧
    (∀ s : GLState,
      (runTrace s
        (Framebuffer.attachTexture2DDSTrace fb t a texTarget tex mipLevel)).attachments
        fb a.toGL = some (.texture2D texTarget tex mipLevel)) ∧
    (∀ s : GLState,
      (runTrace s
        (Framebuffer.attachTexture2DColorTrace fb t n texTarget tex mipLevel)).attachments
        fb ((GL_COLOR_ATTACHMENT0 + n) % 2 ^ 32) =
        some (.texture2D texTarget tex mipLevel)) ∧
    (∀ s : GLState,
      (runTrace s
        (Framebuffer.attachCubeMapTextureDSTrace fb t a coordinate tex mipLevel)).attachments
        fb a.toGL = some (.texture2D coordinate tex mipLevel)) ∧
    (∀ s : GLState,
      (runTrace s
        (Framebuffer.attachCubeMapTextureColorTrace fb t n coordinate tex mipLevel)).attachments
        fb ((GL_COLOR_ATTACHMENT0 + n) % 2 ^ 32) =
        some (.texture2D coordinate tex mipLevel)) ∧
    (∀ s : GLState,
      (runTrace s
        (Framebuffer.attachTexture3DDSTrace fb t a texTarget tex mipLevel layer)).attachments
        fb a.toGL = some (.texture3D texTarget tex mipLevel layer)) ∧
    (∀ s : GLState,
      (runTrace s
        (Framebuffer.attachTexture3DColorTrace fb t n texTarget tex mipLevel layer)).attachments
        fb ((GL_COLOR_ATTACHMENT0 + n) % 2 ^ 32) =
        some (.texture3D texTarget tex mipLevel layer)) := by
  refine ⟨rfl, rfl, rfl, rfl, rfl, rfl, rfl, rfl, rfl, rfl,
    fun s => by cases t <;> rfl,
    ?_, ?_, ?_, ?_, ?_, ?_, ?_, ?_, ?_, ?_⟩ <;>
  · intro s
    cases t <;>
      simp [Framebuffer.attachRenderbufferDSTrace,
        Framebuffer.attachRenderbufferColorTrace,
        Framebuffer.attachTexture1DDSTrace,
        Framebuffer.attachTexture1DColorTrace,
        Framebuffer.attachTexture2DDSTrace,
        Framebuffer.attachTexture2DColorTrace,
        Framebuffer.attachCubeMapTextureDSTrace,
        Framebuffer.attachCubeMapTextureColorTrace,
        Framebuffer.attachTexture3DDSTrace,
        Framebuffer.attachTexture3DColorTrace,
        runTrace, GLCmd.run, GLState.attachAddr]

/-- Claim C3: the two-argument convenience `blit(rect, mask)` issues
exactly the same native command as the general
`blit(rect, rect, mask, NearestNeighbor)`, and therefore has the same
effect on any native state (pixel-identical output). -/
theorem C3_blit_convenience_equals_general (bottomLeft topRight : Vec2)
    (m : BlitMask) :
    Framebuffer.blitSameTrace bottomLeft topRight m =
      Framebuffer.blitTrace bottomLeft topRight bottomLeft topRight m
        .NearestNeighbor ∧
    ∀ s : GLState,
      runTrace s (Framebuffer.blitSameTrace bottomLeft topRight m) =
        runTrace s (Framebuffer.blitTrace bottomLeft topRight bottomLeft
          topRight m .NearestNeighbor) :=
  ⟨rfl, fun _ => rfl⟩

/-- Claim C4: `bind(role)` makes the invoked framebuffer the current
binding for that role, replacing the previous binding of that role,
while leaving the other role's binding unchanged; `bindDefault(role)`
does the same with the default (on-screen) framebuffer 0. -/
theorem C4_bind_sets_one_role_only (s : GLState) (fb : Nat) :
    (runTrace s (Framebuffer.bindTrace fb .Read)).readBinding = fb ∧
    (runTrace s (Framebuffer.bindTrace fb .Read)).drawBinding = s.drawBinding ∧
    (runTrace s (Framebuffer.bindTrace fb .Draw)).drawBinding = fb ∧
    (runTrace s (Framebuffer.bindTrace fb .Draw)).readBinding = s.readBinding ∧
    (runTrace s (Framebuffer.bindDefaultTrace .Read)).readBinding = 0 ∧
    (runTrace s (Framebuffer.bindDefaultTrace .Read)).drawBinding = s.drawBinding ∧
    (runTrace s (Framebuffer.bindDefaultTrace .Draw)).drawBinding = 0 ∧
    (runTrace s (Framebuffer.bindDefaultTrace .Draw)).readBinding = s.readBinding :=
  ⟨rfl, rfl, rfl, rfl, rfl, rfl, rfl, rfl⟩

/-- Claim C10: the implicit bind performed at the start of each attach
and read-mapping call is not undone.  The first four conjuncts show the
implicit bind replaces the role's binding (for `Read`, `Draw`, and both
bindings for `ReadDraw`) with the invoked framebuffer, whatever was
bound before; the next twenty show that after each of the ten attach
overloads returns — for every role target — both role bindings are
exactly those left by the implicit bind (so the replacement is
permanent, e.g. attaching to target A at `Draw` while target B is
Draw-bound leaves A Draw-bound); the last four show the read-mapping
calls leave the invoked framebuffer (resp. the default framebuffer 0)
Read-bound and do not touch the Draw binding. -/
theorem C10_implicit_bind_persists (s : GLState) (fb : Nat) (t : Target)
    (a : DepthStencilAttachment) (rb texTarget tex coordinate n : Nat)
    (mipLevel layer : Int) (att : DefaultReadAttachment) :
    ((GLCmd.run s (.bindFramebuffer .Read fb)).readBinding = fb) ∧
    ((GLCmd.run s (.bindFramebuffer .Draw fb)).drawBinding = fb) ∧
    ((GLCmd.run s (.bindFramebuffer .ReadDraw fb)).readBinding = fb) ∧
    ((GLCmd.run s (.bindFramebuffer .ReadDraw fb)).drawBinding = fb) ∧
    (let s1 := GLCmd.run s (.bindFramebuffer t fb)
     ((runTrace s (Framebuffer.attachRenderbufferDSTrace fb t a rb)).readBinding =
        s1.readBinding) ∧
     ((runTrace s (Framebuffer.attachRenderbufferDSTrace fb t a rb)).drawBinding =
        s1.drawBinding) ∧
     ((runTrace s (Framebuffer.attachRenderbufferColorTrace fb t n rb)).readBinding =
        s1.readBinding) ∧
     ((runTrace s (Framebuffer.attachRenderbufferColorTrace fb t n rb)).drawBinding =
        s1.drawBinding) ∧
     ((runTrace s
         (Framebuffer.attachTexture1DDSTrace fb t a texTarget tex mipLevel)).readBinding =
        s1.readBinding) ∧
     ((runTrace s
         (Framebuffer.attachTexture1DDSTrace fb t a texTarget tex mipLevel)).drawBinding =
        s1.drawBinding) ∧
     ((runTrace s
         (Framebuffer.attachTexture1DColorTrace fb t n texTarget tex mipLevel)).readBinding =
        s1.readBinding) ∧
     ((runTrace s
         (Framebuffer.attachTexture1DColorTrace fb t n texTarget tex mipLevel)).drawBinding =
        s1.drawBinding) ∧
     ((runTrace s
         (Framebuffer.attachTexture2DDSTrace fb t a texTarget tex mipLevel)).readBinding =
        s1.readBinding) ∧
     ((runTrace s
         (Framebuffer.attachTexture2DDSTrace fb t a texTarget tex mipLevel)).drawBinding =
        s1.drawBinding) ∧
     ((runTrace s
         (Framebuffer.attachTexture2DColorTrace fb t n texTarget tex mipLevel)).readBinding =
        s1.readBinding) ∧
     ((runTrace s
         (Framebuffer.attachTexture2DColorTrace fb t n texTarget tex mipLevel)).drawBinding =
        s1.drawBinding) ∧
     ((runTrace s
         (Framebuffer.attachCubeMapTextureDSTrace fb t a coordinate tex mipLevel)).readBinding =
        s1.readBinding) ∧
     ((runTrace s
         (Framebuffer.attachCubeMapTextureDSTrace fb t a coordinate tex mipLevel)).drawBinding =
        s1.drawBinding) ∧
     ((runTrace s
         (Framebuffer.attachCubeMapTextureColorTrace fb t n coordinate tex mipLevel)).readBinding =
        s1.readBinding) ∧
     ((runTrace s
         (Framebuffer.attachCubeMapTextureColorTrace fb t n coordinate tex mipLevel)).drawBinding =
        s1.drawBinding) ∧
     ((runTrace s
         (Framebuffer.attachTexture3DDSTrace fb t a texTarget tex mipLevel layer)).readBinding =
        s1.readBinding) ∧
     ((runTrace s
         (Framebuffer.attachTexture3DDSTrace fb t a texTarget tex mipLevel layer)).drawBinding =
        s1.drawBinding) ∧
     ((runTrace s
         (Framebuffer.attachTexture3DColorTrace fb t n texTarget tex mipLevel layer)).readBinding =
        s1.readBinding) ∧
     ((runTrace s
         (Framebuffer.attachTexture3DColorTrace fb t n texTarget tex mipLevel layer)).drawBinding =
        s1.drawBinding)) ∧
    ((runTrace s (Framebuffer.mapForReadTrace fb n)).readBinding = fb) ∧
    ((runTrace s (Framebuffer.mapForReadTrace fb n)).drawBinding = s.drawBinding) ∧
    ((runTrace s (Framebuffer.mapDefaultForReadTrace att)).readBinding = 0) ∧
    ((runTrace s (Framebuffer.mapDefaultForReadTrace att)).drawBinding = s.drawBinding) :=
  ⟨rfl, rfl, rfl, rfl,
   ⟨rfl, rfl, rfl, rfl, rfl, rfl, rfl, rfl, rfl, rfl,
    rfl, rfl, rfl, rfl, rfl, rfl, rfl, rfl, rfl, rfl⟩,
   rfl, rfl, rfl, rfl⟩

/-- Claim C7: blit, read and read-mapping forward the caller's
parameters to the native layer unchanged — no pre-validation, clamping
or rejection for any input, including degenerate or inverted rectangles
and out-of-range slot indices; in particular `mapForRead(n)` selects
read buffer `GL_COLOR_ATTACHMENT0 + n` (32-bit unsigned addition) for
every `n`. -/
theorem C7_parameters_forwarded_unvalidated (bottomLeft topRight
    destinationBottomLeft destinationTopRight : Vec2) (m : BlitMask)
    (filter : Filter) (fb n : Nat) (offset dimensions : Vec2)
    (components type : Nat) :
    (Framebuffer.blitTrace bottomLeft topRight destinationBottomLeft
        destinationTopRight m filter =
      [.blitFramebuffer bottomLeft.x bottomLeft.y topRight.x topRight.y
        destinationBottomLeft.x destinationBottomLeft.y
        destinationTopRight.x destinationTopRight.y m filter]) ∧
    (Framebuffer.mapForReadTrace fb n =
      [.bindFramebuffer .Read fb,
       .readBuffer ((GL_COLOR_ATTACHMENT0 + n) % 2 ^ 32)]) ∧
    (Framebuffer.readTrace offset dimensions components type =
      [.readPixels offset.x offset.y dimensions.x dimensions.y components
        type]) :=
  ⟨rfl, rfl, rfl⟩

/-- Claim C5: the masked form `clear(mask)` clears exactly the buffers
named in the mask of the currently Draw-bound framebuffer (each named
buffer takes the current clear value, each unnamed buffer is untouched,
no other framebuffer is touched), independently of the feature flags:
the flags themselves are untouched and replacing them by any other
flag assignment yields the very same buffer contents. -/
theorem C5_masked_clear_exact (s : GLState) (m : ClearMask) :
    ((Framebuffer.clearWithMask m s).colorBuf s.drawBinding =
      if m.color then s.clearColorVal else s.colorBuf s.drawBinding) ∧
    ((Framebuffer.clearWithMask m s).depthBuf s.drawBinding =
      if m.depth then s.clearDepthVal else s.depthBuf s.drawBinding) ∧
    ((Framebuffer.clearWithMask m s).stencilBuf s.drawBinding =
      if m.stencil then s.clearStencilVal else s.stencilBuf s.drawBinding) ∧
    (∀ f, f ≠ s.drawBinding →
      (Framebuffer.clearWithMask m s).colorBuf f = s.colorBuf f ∧
      (Framebuffer.clearWithMask m s).depthBuf f = s.depthBuf f ∧
      (Framebuffer.clearWithMask m s).stencilBuf f = s.stencilBuf f) ∧
    ((Framebuffer.clearWithMask m s).features = s.features) ∧
    (∀ featureFlags : Feature → Bool,
      (Framebuffer.clearWithMask m { s with features := featureFlags }).colorBuf =
        (Framebuffer.clearWithMask m s).colorBuf ∧
      (Framebuffer.clearWithMask m { s with features := featureFlags }).depthBuf =
        (Framebuffer.clearWithMask m s).depthBuf ∧
      (Framebuffer.clearWithMask m { s with features := featureFlags }).stencilBuf =
        (Framebuffer.clearWithMask m s).stencilBuf) := by
  refine ⟨?_, ?_, ?_, ?_, rfl, fun _ => ⟨rfl, rfl, rfl⟩⟩ <;>
    simp [Framebuffer.clearWithMask, GLCmd.run]
  intro f hf
  simp [hf]

/-- Witness for C5 at a concrete state: clearing with mask
`{Color, Depth}` leaves the buffers of a framebuffer other than the
Draw-bound one untouched. -/
theorem C5_masked_clear_exact_witness :
    (Framebuffer.clearWithMask ⟨true, true, false⟩ initState).colorBuf 5 =
      initState.colorBuf 5 ∧
    (Framebuffer.clearWithMask ⟨true, true, false⟩ initState).depthBuf 5 =
      initState.depthBuf 5 ∧
    (Framebuffer.clearWithMask ⟨true, true, false⟩ initState).stencilBuf 5 =
      initState.stencilBuf 5 :=
  (C5_masked_clear_exact initState ⟨true, true, false⟩).2.2.2.1 5 (by decide)

/-- Claim C1: in every pipeline state satisfying the reachable-state
`clearMask` invariant (established by `clearMaskInv_initState` and
`clearMaskInv_setFeature`), the no-argument `clear()` clears the color
buffer of the currently Draw-bound framebuffer, clears its depth buffer
exactly when `DepthTest` is enabled, clears its stencil buffer exactly
when `StencilTest` is enabled, and touches no other framebuffer. -/
theorem C1_clear_noarg_follows_tests (s : GLState)
    (hInv : Framebuffer.clearMaskInv s) :
    ((Framebuffer.clearNoArg s).colorBuf s.drawBinding = s.clearColorVal) ∧
    ((Framebuffer.clearNoArg s).depthBuf s.drawBinding =
      if s.features .DepthTest then s.clearDepthVal
      else s.depthBuf s.drawBinding) ∧
    ((Framebuffer.clearNoArg s).stencilBuf s.drawBinding =
      if s.features .StencilTest then s.clearStencilVal
      else s.stencilBuf s.drawBinding) ∧
    (∀ f, f ≠ s.drawBinding →
      (Framebuffer.clearNoArg s).colorBuf f = s.colorBuf f ∧
      (Framebuffer.clearNoArg s).depthBuf f = s.depthBuf f ∧
      (Framebuffer.clearNoArg s).stencilBuf f = s.stencilBuf f) := by
  rw [Framebuffer.clearMaskInv] at hInv
  refine ⟨?_, ?_, ?_, ?_⟩ <;>
    simp [Framebuffer.clearNoArg, GLCmd.run, hInv]
  intro f hf
  simp [hf]

/-- Witness for C1 at a concrete reachable state: after enabling
`DepthTest` from the initial state, `clear()` overwrites the depth
buffer of the Draw-bound framebuffer with the clear depth value. -/
theorem C1_clear_noarg_follows_tests_witness :
    (Framebuffer.clearNoArg (Framebuffer.setFeature .DepthTest true initState)).depthBuf
        (Framebuffer.setFeature .DepthTest true initState).drawBinding =
      (Framebuffer.setFeature .DepthTest true initState).clearDepthVal :=
  ((C1_clear_noarg_follows_tests
      (Framebuffer.setFeature .DepthTest true initState) (by rfl)).2.1).trans
    (by decide)

/-- Claim C6: for every valid color slot index (0–15), attaching a
renderbuffer to that slot via any role target and then querying the
native attachment table of the invoked framebuffer at that slot returns
exactly the attached resource. -/
theorem C6_attach_query_roundtrip (s : GLState) (fb : Nat) (t : Target)
    (n : Nat) (rb : Nat) (hn : n < 16) :
    (runTrace s (Framebuffer.attachRenderbufferColorTrace fb t n rb)).attachments
        fb (GL_COLOR_ATTACHMENT0 + n) = some (.renderbuffer rb) := by
  have hmod : (GL_COLOR_ATTACHMENT0 + n) % 2 ^ 32 = GL_COLOR_ATTACHMENT0 + n :=
    Nat.mod_eq_of_lt (by simp only [GL_COLOR_ATTACHMENT0]; omega)
  simp only [Framebuffer.attachRenderbufferColorTrace]
  rw [hmod]
  cases t <;> simp [runTrace, GLCmd.run, GLState.attachAddr]

/-- Witness for C6: attaching renderbuffer 7 to color slot 3 of
framebuffer 1 from the initial state and querying slot 3 returns
renderbuffer 7. -/
theorem C6_attach_query_roundtrip_witness :
    (runTrace initState
        (Framebuffer.attachRenderbufferColorTrace 1 .Draw 3 7)).attachments 1
        (GL_COLOR_ATTACHMENT0 + 3) = some (.renderbuffer 7) :=
  C6_attach_query_roundtrip initState 1 .Draw 3 7 (by decide)

/-- Claim C9: `setFeature` is idempotent — applying it twice with the
same arguments produces exactly the same pipeline state (feature flags,
derived `clearMask`, and everything else) as applying it once; being a
total function on all inputs it has no error conditions. -/
theorem C9_setFeature_idempotent (f : Feature) (b : Bool) (s : GLState) :
    Framebuffer.setFeature f b (Framebuffer.setFeature f b s) =
      Framebuffer.setFeature f b s := by
  cases f <;> cases b <;> (ext <;> simp [Framebuffer.setFeature, GLCmd.run])

/-- Claim C8: construction allocates exactly one fresh native handle
(valid afterwards, never the default 0, leaving all other handles
alone); no native command the wrapper issues other than the
destructor's `glDeleteFramebuffers` changes any handle's validity; the
destructor issues exactly one delete, and that delete — from any bind
state whatsoever — neither invalidates any other handle nor disturbs a
role binding that points at another target, the default target
included. -/
theorem C8_handle_lifecycle (s : GLState) (h0 : s.alive s.nextId = false)
    (hnz : s.nextId ≠ 0) :
    ((Framebuffer.construct s).1 = s.nextId ∧
     s.alive (Framebuffer.construct s).1 = false ∧
     (Framebuffer.construct s).2.alive (Framebuffer.construct s).1 = true ∧
     (Framebuffer.construct s).1 ≠ 0 ∧
     ∀ f, f ≠ s.nextId → (Framebuffer.construct s).2.alive f = s.alive f) ∧
    (∀ (s2 : GLState) (c : GLCmd) (f : Nat),
      (∀ g, c ≠ .deleteFramebuffers g) →
      (GLCmd.run s2 c).alive f = s2.alive f) ∧
    (Framebuffer.destroyTrace s.nextId = [.deleteFramebuffers s.nextId]) ∧
    (∀ (s2 : GLState) (f : Nat), f ≠ s.nextId →
      (runTrace s2 (Framebuffer.destroyTrace s.nextId)).alive f = s2.alive f) ∧
    (∀ (s2 : GLState) (f : Nat), f ≠ s.nextId →
      (s2.readBinding = f →
        (runTrace s2 (Framebuffer.destroyTrace s.nextId)).readBinding = f) ∧
      (s2.drawBinding = f →
        (runTrace s2 (Framebuffer.destroyTrace s.nextId)).drawBinding = f)) ∧
    (∀ s2 : GLState, s2.readBinding = 0 →
      (runTrace s2 (Framebuffer.destroyTrace s.nextId)).readBinding = 0) ∧
    (∀ s2 : GLState, s2.drawBinding = 0 →
      (runTrace s2 (Framebuffer.destroyTrace s.nextId)).drawBinding = 0) := by
  refine ⟨⟨rfl, h0, by simp [Framebuffer.construct], hnz, ?_⟩, ?_, rfl, ?_, ?_, ?_, ?_⟩
  · intro f hf
    simp [Framebuffer.construct, hf]
  · intro s2 c f hc
    cases c with
    | deleteFramebuffers g => exact absurd rfl (hc g)
    | bindFramebuffer t fb => cases t <;> rfl
    | _ => rfl
  · intro s2 f hf
    simp [Framebuffer.destroyTrace, runTrace, GLCmd.run, hf]
  · intro s2 f hf
    constructor <;> intro hb <;>
      simp [Framebuffer.destroyTrace, runTrace, GLCmd.run, hb, hf]
  · intro s2 hb
    simp [Framebuffer.destroyTrace, runTrace, GLCmd.run, hb,
      (Ne.symm hnz : (0 : Nat) ≠ s.nextId)]
  · intro s2 hb
    simp [Framebuffer.destroyTrace, runTrace, GLCmd.run, hb,
      (Ne.symm hnz : (0 : Nat) ≠ s.nextId)]

/-- Witness for C8 at the initial state: the handle generated by the
constructor is fresh before construction and valid after it. -/
theorem C8_handle_lifecycle_witness :
    initState.alive (Framebuffer.construct initState).1 = false ∧
    (Framebuffer.construct initState).2.alive
      (Framebuffer.construct initState).1 = true :=
  ⟨(C8_handle_lifecycle initState rfl (by decide)).1.2.1,
   (C8_handle_lifecycle initState rfl (by decide)).1.2.2.1⟩

end Magnum
